import Mathlib

/-!
Verification of the booking lifecycle and date-conflict engine of the
Jharkhand tourism backend (src/controllers/bookings.controller.ts).

Bookings are persisted documents; we model the persistence layer as a
`List Booking` (the collection), and the controller functions
`hasDateConflict`, `createBooking`, `cancelBooking` as pure functions of
that store.  Dates (`Date` objects) are modelled as `Int` timestamps in
milliseconds since the epoch; `toISOString().split('T')[0]` truncation is
modelled by `dateOnly`, rounding down to midnight of the calendar day.
JavaScript falsiness of an optional string (undefined or empty) is
modelled by `strFalsy`.
-/

namespace Bookings

/-- Booking status enumeration, from the Booking schema. -/
inductive BookingStatus
  | pending
  | confirmed
  | cancelled
  | completed
deriving DecidableEq, Repr

/-- Guest counts (`guests` object of the request body / booking document). -/
structure GuestCounts where
  adults : Nat
  children : Nat
deriving DecidableEq, Repr

/-- Guest contact details (`guestDetails`). -/
structure GuestDetails where
  name : String
  email : String
  phone : String
deriving DecidableEq, Repr

/-- Pricing breakdown; `total` is the stored total price used for refunds. -/
structure Pricing where
  basePrice : Int
  total : Int
deriving DecidableEq, Repr

/-- The persisted Booking document (fields touched by the controller). -/
structure Booking where
  id : String
  bookingNumber : Nat
  listingType : String
  listingId : String
  listingTitle : Option String
  checkIn : Int
  checkOut : Int
  guests : Option GuestCounts
  guestDetails : Option GuestDetails
  specialRequests : Option String
  pricing : Pricing
  status : BookingStatus
  paymentStatus : String
  cancellationReason : Option String
  cancelledAt : Option Int
deriving DecidableEq, Repr

/-- The request body of POST /api/bookings (`CreateBookingInput`); every
field the controller checks for presence is optional here. -/
structure CreateBookingInput where
  listingType : Option String
  listingId : Option String
  checkIn : Option Int
  checkOut : Option Int
  guests : Option GuestCounts
  guestDetails : Option GuestDetails
  specialRequests : Option String
  pricing : Pricing
deriving DecidableEq, Repr

/-- A `{field, message}` validation-error entry. -/
structure FieldError where
  field : String
  message : String
deriving DecidableEq, Repr

/-- JavaScript falsiness of an optional string: `undefined` or `""`. -/
def strFalsy : Option String → Bool
  | none => true
  | some s => s.isEmpty

/-- JavaScript truthiness of an optional string (`if (excludeBookingId)`). -/
def strTruthy (s : Option String) : Bool := !(strFalsy s)

/-- `toISOString().split('T')[0]`: truncate a millisecond timestamp to
midnight of its calendar day (86 400 000 ms per day, floored). -/
def dateOnly (t : Int) : Int := 86400000 * t.ediv 86400000

/-- Outcome of a `findById(...).select(...)` lookup into a listing store:
a document with the selected field, no document, or a thrown error. -/
inductive LookupResult
  | found (title : String)
  | absent
  | failure
deriving DecidableEq, Repr

/-- `getListingTitle` (bookings.controller.ts lines 28-41): look up the
homestay title or guide name; any miss or thrown error collapses to
`none` (the catch block returns undefined). -/
def getListingTitle (lookup : String → String → LookupResult)
    (listingType listingId : String) : Option String :=
  if listingType == "homestay" then
    match lookup "homestay" listingId with
    | .found t => some t
    | .absent => none
    | .failure => none
  else if listingType == "guide" then
    match lookup "guide" listingId with
    | .found t => some t
    | .absent => none
    | .failure => none
  else
    none

/-- The Mongo query of `hasDateConflict` as a predicate on one stored
booking: same `listingId`, `status != cancelled`, `checkIn < checkOut_q`
and `checkOut > checkIn_q`, and, when `excludeBookingId` is truthy,
`_id != excludeBookingId`. -/
def conflictQueryMatches (listingId : String) (checkIn checkOut : Int)
    (excludeBookingId : Option String) (b : Booking) : Bool :=
  b.listingId == listingId
    && !(b.status == .cancelled)
    && decide (b.checkIn < checkOut)
    && decide (b.checkOut > checkIn)
    && (if strTruthy excludeBookingId then !(some b.id == excludeBookingId) else true)

/-- `hasDateConflict` (bookings.controller.ts lines 46-66): `findOne` over
the bookings collection with the conflict query. -/
def hasDateConflict (store : List Booking) (listingId : String)
    (checkIn checkOut : Int) (excludeBookingId : Option String) : Option Booking :=
  store.find? (conflictQueryMatches listingId checkIn checkOut excludeBookingId)

/-- The field-presence validation block of `createBooking`
(bookings.controller.ts lines 146-167), in source order. -/
def validationErrors (input : CreateBookingInput) : List FieldError :=
  (if strFalsy input.listingType || !(["homestay", "guide"].contains (input.listingType.getD "")) then
    [⟨"listingType", "Listing type must be \"homestay\" or \"guide\""⟩] else [])
  ++ (if strFalsy input.listingId then
    [⟨"listingId", "Listing ID is required"⟩] else [])
  ++ (if input.checkIn.isNone then
    [⟨"checkIn", "Check-in date is required"⟩] else [])
  ++ (if input.checkOut.isNone then
    [⟨"checkOut", "Check-out date is required"⟩] else [])
  ++ (if (input.guests.map GuestCounts.adults).getD 0 < 1 then
    [⟨"guests.adults", "At least 1 adult guest is required"⟩] else [])
  ++ (if strFalsy (input.guestDetails.map GuestDetails.name) then
    [⟨"guestDetails.name", "Guest name is required"⟩] else [])
  ++ (if strFalsy (input.guestDetails.map GuestDetails.email) then
    [⟨"guestDetails.email", "Guest email is required"⟩] else [])

/-- Details of the 409 conflict response body (lines 196-209). -/
structure ConflictDetails where
  requestedCheckIn : Int
  requestedCheckOut : Int
  conflictingId : String
  conflictingCheckIn : Int
  conflictingCheckOut : Int
deriving DecidableEq, Repr

/-- Result of `createBooking`: 400 validation error, 409 conflict, or 201
created booking. -/
inductive CreateResult
  | validationError (message : String) (errors : List FieldError)
  | conflictError (message : String) (details : ConflictDetails)
  | created (booking : Booking)
deriving DecidableEq, Repr

/-- The new booking document constructed on the success path of
`createBooking` (lines 219-232). -/
def buildBooking (input : CreateBookingInput) (listingTitle : Option String)
    (bookingNumber : Nat) (newId : String) : Booking :=
  { id := newId
    bookingNumber := bookingNumber
    listingType := input.listingType.getD ""
    listingId := input.listingId.getD ""
    listingTitle := listingTitle
    checkIn := input.checkIn.getD 0
    checkOut := input.checkOut.getD 0
    guests := input.guests
    guestDetails := input.guestDetails
    specialRequests := input.specialRequests
    pricing := input.pricing
    status := .pending
    paymentStatus := "pending"
    cancellationReason := none
    cancelledAt := none }

/-- `createBooking` (bookings.controller.ts lines 141-253): presence
validation, then the two date-range checks, then the conflict check, then
construction and insertion of the new booking.  `now` is the clock,
`lookup` the listing stores, `bookingNumber` the value issued by the
sequence generator and `newId` the persistence-assigned document id.
Returns the HTTP-level result together with the updated collection. -/
def createBooking (store : List Booking) (input : CreateBookingInput)
    (now : Int) (lookup : String → String → LookupResult)
    (bookingNumber : Nat) (newId : String) : CreateResult × List Booking :=
  let errors := validationErrors input
  if errors.length > 0 then
    (.validationError "Validation failed" errors, store)
  else
    let checkInDate := input.checkIn.getD 0
    let checkOutDate := input.checkOut.getD 0
    if checkInDate ≤ now then
      (.validationError "Validation failed"
        [⟨"checkIn", "Check-in date must be in the future"⟩], store)
    else if checkOutDate ≤ checkInDate then
      (.validationError "Validation failed"
        [⟨"checkOut", "Check-out date must be after check-in date"⟩], store)
    else
      match hasDateConflict store (input.listingId.getD "") checkInDate checkOutDate none with
      | some conflictingBooking =>
        (.conflictError "The selected dates are not available"
          { requestedCheckIn := input.checkIn.getD 0
            requestedCheckOut := input.checkOut.getD 0
            conflictingId := conflictingBooking.id
            conflictingCheckIn := dateOnly conflictingBooking.checkIn
            conflictingCheckOut := dateOnly conflictingBooking.checkOut }, store)
      | none =>
        let listingTitle := getListingTitle lookup (input.listingType.getD "") (input.listingId.getD "")
        let newBooking := buildBooking input listingTitle bookingNumber newId
        (.created newBooking, store ++ [newBooking])

/-- Response body of a successful cancellation (lines 291-298). -/
structure CancelPayload where
  id : String
  status : BookingStatus
  cancellationReason : Option String
  cancelledAt : Option Int
  refundAmount : Int
  refundStatus : String
deriving DecidableEq, Repr

/-- Result of `cancelBooking`: 404, 400 with a state-guard message, or the
200 payload. -/
inductive CancelResult
  | notFound (message : String)
  | invalidState (message : String)
  | ok (payload : CancelPayload)
deriving DecidableEq, Repr

/-- The in-place mutation of the cancellation success path (lines
284-289): mark the first booking with the given id cancelled, recording
the reason and the cancellation time. -/
def cancelMark (reason : String) (now : Int) (b : Booking) : Booking :=
  { b with status := .cancelled, cancellationReason := some reason, cancelledAt := some now }

/-- Persist the cancellation: replace the (first) document with the given
id by its cancelled version, leaving the rest of the collection alone. -/
def cancelUpdate (store : List Booking) (id : String) (reason : String)
    (now : Int) : List Booking :=
  match store with
  | [] => []
  | b :: rest =>
    if b.id == id then cancelMark reason now b :: rest
    else b :: cancelUpdate rest id reason now

/-- `cancelBooking` (bookings.controller.ts lines 262-303): look the
booking up by id, guard on its status, then cancel it and report the full
stored total as the refund amount.  Returns the HTTP-level result with
the updated collection. -/
def cancelBooking (store : List Booking) (id : String) (reason : String)
    (now : Int) : CancelResult × List Booking :=
  match store.find? (fun b => b.id == id) with
  | none => (.notFound "Booking not found", store)
  | some booking =>
    if booking.status == .cancelled then
      (.invalidState "This booking is already cancelled", store)
    else if booking.status == .completed then
      (.invalidState "Cannot cancel a completed booking", store)
    else
      let updated := cancelMark reason now booking
      (.ok { id := updated.id
             status := updated.status
             cancellationReason := updated.cancellationReason
             cancelledAt := updated.cancelledAt
             refundAmount := updated.pricing.total
             refundStatus := "pending" },
       cancelUpdate store id reason now)

end Bookings
namespace Bookings

/-! ### The cross-entity disjointness invariant -/

/-- Two stored bookings are compatible unless they are a pair of
non-cancelled bookings on the same listing whose `[checkIn, checkOut)`
intervals overlap. -/
def bookingsCompatible (b1 b2 : Booking) : Bool :=
  !(b1.listingId == b2.listingId
    && !(b1.status == .cancelled) && !(b2.status == .cancelled)
    && decide (b1.checkIn < b2.checkOut) && decide (b2.checkIn < b1.checkOut))

/-- Pairwise compatibility of a whole collection. -/
def pairwiseCompat : List Booking → Bool
  | [] => true
  | b :: rest => rest.all (fun x => bookingsCompatible b x) && pairwiseCompat rest

/-- The central invariant: for every listing, the non-cancelled bookings
have pairwise-disjoint `[checkIn, checkOut)` intervals. -/
def activeOverlapFree (store : List Booking) : Bool := pairwiseCompat store

theorem bookingsCompatible_of_cancelled_left {b1 : Booking} (b2 : Booking)
    (h : b1.status = .cancelled) : bookingsCompatible b1 b2 = true := by
  simp [bookingsCompatible, h]

theorem bookingsCompatible_of_cancelled_right (b1 : Booking) {b2 : Booking}
    (h : b2.status = .cancelled) : bookingsCompatible b1 b2 = true := by
  simp [bookingsCompatible, h]

theorem pairwiseCompat_append_singleton (l : List Booking) (a : Booking) :
    pairwiseCompat (l ++ [a])
      = (pairwiseCompat l && l.all (fun x => bookingsCompatible x a)) := by
  induction l with
  | nil => simp [pairwiseCompat]
  | cons b rest ih =>
    simp only [List.cons_append, pairwiseCompat, List.all_append, List.all_cons,
      List.all_nil, ih]
    cases hba : bookingsCompatible b a <;>
      cases h1 : rest.all (fun x => bookingsCompatible b x) <;>
      cases h2 : pairwiseCompat rest <;>
      cases h3 : rest.all (fun x => bookingsCompatible x a) <;>
      simp [ih, hba, h1, h2, h3]

theorem all_compat_cancelMark_cancelUpdate {b : Booking} {l : List Booking}
    (id : String) (reason : String) (now : Int)
    (h : l.all (fun x => bookingsCompatible b x) = true) :
    (cancelUpdate l id reason now).all (fun x => bookingsCompatible b x) = true := by
  induction l with
  | nil => simp [cancelUpdate]
  | cons c rest ih =>
    simp only [List.all_cons, Bool.and_eq_true] at h
    simp only [cancelUpdate]
    split
    · simp only [List.all_cons, Bool.and_eq_true]
      exact ⟨bookingsCompatible_of_cancelled_right b rfl, h.2⟩
    · simp only [List.all_cons, Bool.and_eq_true]
      exact ⟨h.1, ih h.2⟩

theorem pairwiseCompat_cancelUpdate (store : List Booking) (id : String)
    (reason : String) (now : Int) (h : pairwiseCompat store = true) :
    pairwiseCompat (cancelUpdate store id reason now) = true := by
  induction store with
  | nil => simp [cancelUpdate, pairwiseCompat]
  | cons b rest ih =>
    simp only [pairwiseCompat, Bool.and_eq_true] at h
    simp only [cancelUpdate]
    split
    · simp only [pairwiseCompat, Bool.and_eq_true]
      refine ⟨?_, h.2⟩
      simp only [List.all_eq_true]
      intro x _
      exact bookingsCompatible_of_cancelled_left x rfl
    · simp only [pairwiseCompat, Bool.and_eq_true]
      exact ⟨all_compat_cancelMark_cancelUpdate id reason now h.1, ih h.2⟩

theorem createBooking_snd_preserves (store : List Booking)
    (input : CreateBookingInput) (now : Int)
    (lookup : String → String → LookupResult) (bookingNumber : Nat)
    (newId : String) (h : activeOverlapFree store = true) :
    activeOverlapFree (createBooking store input now lookup bookingNumber newId).2 = true := by
  simp only [createBooking]
  split
  · exact h
  split
  · exact h
  split
  · exact h
  split
  · exact h
  rename_i heq
  unfold activeOverlapFree at h ⊢
  rw [pairwiseCompat_append_singleton, h, Bool.true_and, List.all_eq_true]
  intro x hx
  simp only [hasDateConflict] at heq
  have hnc := List.find?_eq_none.mp heq x hx
  have key : ¬(x.listingId = input.listingId.getD "" ∧ x.status ≠ BookingStatus.cancelled
      ∧ x.checkIn < input.checkOut.getD 0 ∧ input.checkIn.getD 0 < x.checkOut) := by
    intro hk
    apply hnc
    simp [conflictQueryMatches, strTruthy, strFalsy, hk.1, hk.2.1, hk.2.2.1, hk.2.2.2]
  simp [bookingsCompatible, buildBooking]
  by_cases h5 : x.listingId = input.listingId.getD ""
  · by_cases h6 : x.status = BookingStatus.cancelled
    · tauto
    · have h7 : ¬(x.checkIn < input.checkOut.getD 0 ∧ input.checkIn.getD 0 < x.checkOut) :=
        fun hk => key ⟨h5, h6, hk.1, hk.2⟩
      rcases not_and_or.mp h7 with h8 | h8
      · have := le_of_not_lt h8
        tauto
      · have := le_of_not_lt h8
        tauto
  · tauto

theorem cancelBooking_snd_preserves (store : List Booking) (id : String)
    (reason : String) (now : Int) (h : activeOverlapFree store = true) :
    activeOverlapFree (cancelBooking store id reason now).2 = true := by
  simp only [cancelBooking]
  split
  · exact h
  split
  · exact h
  split
  · exact h
  exact pairwiseCompat_cancelUpdate store id reason now h

/-! ### Sequences of booking operations -/

/-- One externally issued booking operation: a creation request (with its
clock reading, listing stores, issued sequence number and fresh document
id) or a cancellation request. -/
inductive BookingOp
  | create (input : CreateBookingInput) (now : Int)
      (lookup : String → String → LookupResult) (bookingNumber : Nat) (newId : String)
  | cancel (id : String) (reason : String) (now : Int)

/-- Apply one operation to the collection; a rejected operation leaves
the collection unchanged (the controllers return the store untouched on
every error path). -/
def applyOp (store : List Booking) (op : BookingOp) : List Booking :=
  match op with
  | .create input now lookup bookingNumber newId =>
    (createBooking store input now lookup bookingNumber newId).2
  | .cancel id reason now => (cancelBooking store id reason now).2

/-- Apply a whole sequence of booking operations in order. -/
def applyOps (store : List Booking) (ops : List BookingOp) : List Booking :=
  ops.foldl applyOp store

/-- C1: for every listing, the set of bookings with status != cancelled
has pairwise-disjoint [checkIn, checkOut) intervals: any sequence of
createBooking and cancelBooking operations preserves this invariant,
because admission rejects a creation whenever a non-cancelled booking on
the same listingId overlaps the requested range. -/
theorem overlapFree_invariant_preserved (store : List Booking)
    (ops : List BookingOp) (h : activeOverlapFree store = true) :
    activeOverlapFree (applyOps store ops) = true := by
  induction ops generalizing store with
  | nil => exact h
  | cons op rest ih =>
    cases op with
    | create input now lookup bookingNumber newId =>
      exact ih _ (createBooking_snd_preserves store input now lookup bookingNumber newId h)
    | cancel id reason now =>
      exact ih _ (cancelBooking_snd_preserves store id reason now h)

/-! ### Concrete sample data for witnesses -/

/-- A sample lookup into the listing stores: every listing lookup misses. -/
def sampleLookup : String → String → LookupResult := fun _ _ => .absent

/-- A sample lookup whose homestay store holds one title. -/
def sampleLookupFound : String → String → LookupResult := fun _ _ => .found "Birsa Munda Homestay"

/-- A sample lookup that throws on every access. -/
def sampleLookupThrow : String → String → LookupResult := fun _ _ => .failure

/-- A well-formed creation request for listing "h1", staying [1000, 2000). -/
def sampleInput1 : CreateBookingInput :=
  { listingType := some "homestay", listingId := some "h1",
    checkIn := some 1000, checkOut := some 2000,
    guests := some ⟨2, 0⟩,
    guestDetails := some ⟨"Asha Devi", "asha@example.in", "9999999999"⟩,
    specialRequests := none, pricing := ⟨1200, 6000⟩ }

/-- A second request on the same listing, overlapping the first
([1500, 2500) meets [1000, 2000)). -/
def sampleInput2 : CreateBookingInput :=
  { sampleInput1 with checkIn := some 1500, checkOut := some 2500 }

/-- Admit the first booking, attempt an overlapping one (rejected),
cancel the first, then retry the previously overlapping range. -/
def sampleOps : List BookingOp :=
  [ .create sampleInput1 0 sampleLookup 1 "b1",
    .create sampleInput2 0 sampleLookup 2 "b2",
    .cancel "b1" "change of plans" 100,
    .create sampleInput2 0 sampleLookup 3 "b3" ]

/-- Witness for C1 at a concrete operation sequence from the empty store. -/
theorem overlapFree_invariant_preserved_witness :
    activeOverlapFree [] = true ∧ activeOverlapFree (applyOps [] sampleOps) = true :=
  ⟨rfl, overlapFree_invariant_preserved [] sampleOps rfl⟩

/-! ### The conflict query, characterised -/

theorem conflictQueryMatches_iff (listingId : String) (c d : Int)
    (excl : Option String) (hexcl : excl ≠ some "") (b : Booking) :
    conflictQueryMatches listingId c d excl b = true ↔
      b.listingId = listingId ∧ b.status ≠ .cancelled ∧
        (∀ e, excl = some e → b.id ≠ e) ∧ b.checkIn < d ∧ b.checkOut > c := by
  cases excl with
  | none =>
    simp [conflictQueryMatches, strTruthy, strFalsy]
    tauto
  | some e =>
    have he : ¬ e.isEmpty = true := by
      simp only [String.isEmpty_iff]
      intro h
      exact hexcl (by rw [h])
    simp [conflictQueryMatches, strTruthy, strFalsy, he]
    tauto

/-- C2: `hasDateConflict listingId c d excl` returns a conflicting booking
iff some stored booking on the same listing with status != cancelled and
id different from `excl` (when supplied) has a range with `checkIn < d`
and `checkOut > c`; the returned booking itself is such a booking, and
ranges that merely touch at an endpoint are never reported. -/
theorem hasDateConflict_iff_overlap (store : List Booking) (listingId : String)
    (c d : Int) (excl : Option String) (hexcl : excl ≠ some "") :
    ((hasDateConflict store listingId c d excl).isSome ↔
        ∃ b ∈ store, b.listingId = listingId ∧ b.status ≠ .cancelled ∧
          (∀ e, excl = some e → b.id ≠ e) ∧ b.checkIn < d ∧ b.checkOut > c)
    ∧ (∀ b, hasDateConflict store listingId c d excl = some b →
        b ∈ store ∧ b.listingId = listingId ∧ b.status ≠ .cancelled ∧
          (∀ e, excl = some e → b.id ≠ e) ∧ b.checkIn < d ∧ b.checkOut > c)
    ∧ (∀ b ∈ store, (b.checkOut = c ∨ b.checkIn = d) →
        hasDateConflict store listingId c d excl ≠ some b) := by
  refine ⟨?_, ?_, ?_⟩
  · rw [hasDateConflict, List.find?_isSome]
    constructor
    · rintro ⟨x, hx, hpx⟩
      exact ⟨x, hx, (conflictQueryMatches_iff listingId c d excl hexcl x).mp hpx⟩
    · rintro ⟨x, hx, hprop⟩
      exact ⟨x, hx, (conflictQueryMatches_iff listingId c d excl hexcl x).mpr hprop⟩
  · intro b hb
    refine ⟨List.mem_of_find?_eq_some hb, ?_⟩
    exact (conflictQueryMatches_iff listingId c d excl hexcl b).mp (List.find?_some hb)
  · intro b _ htouch hfind
    have hprop := (conflictQueryMatches_iff listingId c d excl hexcl b).mp (List.find?_some hfind)
    rcases htouch with h | h
    · exact absurd hprop.2.2.2.2 (by omega)
    · exact absurd hprop.2.2.2.1 (by omega)

/-- Witness for C2: a store with one pending booking on "h1" over
[1000, 2000); the range [1500, 2500) conflicts, the touching range
[2000, 3000) does not. -/
theorem hasDateConflict_iff_overlap_witness :
    ((hasDateConflict [buildBooking sampleInput1 none 1 "b1"] "h1" 1500 2500 none).isSome ↔
        ∃ b ∈ [buildBooking sampleInput1 none 1 "b1"], b.listingId = "h1" ∧
          b.status ≠ .cancelled ∧ (∀ e, (none : Option String) = some e → b.id ≠ e) ∧
          b.checkIn < 2500 ∧ b.checkOut > 1500)
    ∧ (hasDateConflict [buildBooking sampleInput1 none 1 "b1"] "h1" 2000 3000 none).isSome = false :=
  ⟨(hasDateConflict_iff_overlap [buildBooking sampleInput1 none 1 "b1"] "h1" 1500 2500 none
      (by decide)).1,
   by decide⟩

/-! ### Cancellation: state guard, effect, and frame -/

/-- C5: `cancelBooking` succeeds only from `pending` or `confirmed`; from
`cancelled` it fails with the specific "already cancelled" message, from
`completed` with the specific "cannot cancel a completed booking"
message, the two messages are distinct, and a failed cancellation leaves
the collection unchanged. -/
theorem cancelBooking_state_guard (store : List Booking) (id reason : String)
    (now : Int) (b : Booking)
    (hfind : store.find? (fun x => x.id == id) = some b) :
    (b.status = .cancelled →
      cancelBooking store id reason now
        = (.invalidState "This booking is already cancelled", store))
    ∧ (b.status = .completed →
      cancelBooking store id reason now
        = (.invalidState "Cannot cancel a completed booking", store))
    ∧ "This booking is already cancelled" ≠ "Cannot cancel a completed booking"
    ∧ (∀ payload, (cancelBooking store id reason now).1 = .ok payload →
        b.status = .pending ∨ b.status = .confirmed) := by
  refine ⟨?_, ?_, by decide, ?_⟩
  · intro h
    simp [cancelBooking, hfind, h]
  · intro h
    simp [cancelBooking, hfind, h]
  · intro payload hok
    cases hs : b.status with
    | pending => exact Or.inl rfl
    | confirmed => exact Or.inr rfl
    | cancelled => simp [cancelBooking, hfind, hs] at hok
    | completed => simp [cancelBooking, hfind, hs] at hok

/-- A booking admitted from `sampleInput1` and then already cancelled. -/
def sampleCancelledBooking : Booking :=
  { buildBooking sampleInput1 none 1 "b1" with status := .cancelled }

/-- A booking admitted from `sampleInput1` and then completed. -/
def sampleCompletedBooking : Booking :=
  { buildBooking sampleInput1 none 1 "b1" with status := .completed }

/-- Witness for C5 on a concrete already-cancelled booking. -/
theorem cancelBooking_state_guard_witness :
    cancelBooking [sampleCancelledBooking] "b1" "late" 5
      = (.invalidState "This booking is already cancelled", [sampleCancelledBooking]) :=
  (cancelBooking_state_guard [sampleCancelledBooking] "b1" "late" 5
    sampleCancelledBooking (by decide)).1 rfl

/-- C6: cancelling a `pending` or `confirmed` booking sets
`status = cancelled`, records the supplied reason and `cancelledAt = now`,
and reports a refund equal to the stored `pricing.total` with
`refundStatus = pending`; the store update is exactly the in-place
cancellation mark. -/
theorem cancelBooking_success (store : List Booking) (id reason : String)
    (now : Int) (b : Booking)
    (hfind : store.find? (fun x => x.id == id) = some b)
    (hstatus : b.status = .pending ∨ b.status = .confirmed) :
    cancelBooking store id reason now
      = (.ok { id := b.id, status := .cancelled, cancellationReason := some reason,
               cancelledAt := some now, refundAmount := b.pricing.total,
               refundStatus := "pending" },
         cancelUpdate store id reason now) := by
  rcases hstatus with h | h <;> simp [cancelBooking, hfind, h, cancelMark]

/-- A pending booking admitted from `sampleInput1`. -/
def samplePendingBooking : Booking := buildBooking sampleInput1 none 1 "b1"

/-- Witness for C6 on a concrete pending booking. -/
theorem cancelBooking_success_witness :
    cancelBooking [samplePendingBooking] "b1" "change of plans" 7
      = (.ok { id := "b1", status := .cancelled,
               cancellationReason := some "change of plans",
               cancelledAt := some 7, refundAmount := 6000,
               refundStatus := "pending" },
         cancelUpdate [samplePendingBooking] "b1" "change of plans" 7) :=
  cancelBooking_success [samplePendingBooking] "b1" "change of plans" 7
    samplePendingBooking (by decide) (Or.inl rfl)

/-- The frame of a cancellation: every field other than `status`,
`cancellationReason` and `cancelledAt` is preserved, and a record is
either untouched or carries exactly the cancellation triple. -/
def cancelFrame (reason : String) (now : Int) (old new : Booking) : Prop :=
  new.id = old.id ∧ new.bookingNumber = old.bookingNumber ∧
  new.listingType = old.listingType ∧ new.listingId = old.listingId ∧
  new.listingTitle = old.listingTitle ∧ new.checkIn = old.checkIn ∧
  new.checkOut = old.checkOut ∧ new.guests = old.guests ∧
  new.guestDetails = old.guestDetails ∧ new.specialRequests = old.specialRequests ∧
  new.pricing = old.pricing ∧ new.paymentStatus = old.paymentStatus ∧
  (new = old ∨ (new.status = .cancelled ∧ new.cancellationReason = some reason ∧
    new.cancelledAt = some now))

theorem cancelFrame_refl (reason : String) (now : Int) (b : Booking) :
    cancelFrame reason now b b :=
  ⟨rfl, rfl, rfl, rfl, rfl, rfl, rfl, rfl, rfl, rfl, rfl, rfl, Or.inl rfl⟩

theorem forall₂_cancelFrame_cancelUpdate (id reason : String) (now : Int)
    (l : List Booking) :
    List.Forall₂ (cancelFrame reason now) l (cancelUpdate l id reason now) := by
  induction l with
  | nil => exact List.Forall₂.nil
  | cons b rest ih =>
    simp only [cancelUpdate]
    split
    · exact List.Forall₂.cons
        ⟨rfl, rfl, rfl, rfl, rfl, rfl, rfl, rfl, rfl, rfl, rfl, rfl,
          Or.inr ⟨rfl, rfl, rfl⟩⟩
        (List.forall₂_same.mpr fun x _ => cancelFrame_refl reason now x)
    · exact List.Forall₂.cons (cancelFrame_refl reason now b) ih

/-- C9: a successful `cancelBooking` mutates only `status`,
`cancellationReason` and `cancelledAt`; every other field of every record
— including `bookingNumber`, `listingId`, `listingTitle`, `checkIn`,
`checkOut`, `guests`, `guestDetails`, `pricing` and in particular
`paymentStatus` (never set to refunded) — is left unchanged. -/
theorem cancelBooking_frame (store : List Booking) (id reason : String)
    (now : Int) (b : Booking)
    (hfind : store.find? (fun x => x.id == id) = some b)
    (hstatus : b.status = .pending ∨ b.status = .confirmed) :
    (∃ payload, (cancelBooking store id reason now).1 = .ok payload)
    ∧ List.Forall₂ (cancelFrame reason now) store (cancelBooking store id reason now).2 := by
  have hsnd : (cancelBooking store id reason now).2 = cancelUpdate store id reason now := by
    rcases hstatus with h | h <;> simp [cancelBooking, hfind, h]
  refine ⟨?_, ?_⟩
  · refine ⟨⟨b.id, .cancelled, some reason, some now, b.pricing.total, "pending"⟩, ?_⟩
    rcases hstatus with h | h <;> simp [cancelBooking, hfind, h, cancelMark]
  · rw [hsnd]
    exact forall₂_cancelFrame_cancelUpdate id reason now store

/-- A second pending booking on another listing, untouched by the cancel. -/
def sampleOtherBooking : Booking :=
  { buildBooking sampleInput1 none 2 "b9" with listingId := "h2" }

/-- Witness for C9 on a concrete two-booking store. -/
theorem cancelBooking_frame_witness :
    (∃ payload,
      (cancelBooking [samplePendingBooking, sampleOtherBooking] "b1" "late" 7).1
        = .ok payload)
    ∧ List.Forall₂ (cancelFrame "late" 7) [samplePendingBooking, sampleOtherBooking]
        (cancelBooking [samplePendingBooking, sampleOtherBooking] "b1" "late" 7).2 :=
  cancelBooking_frame [samplePendingBooking, sampleOtherBooking] "b1" "late" 7
    samplePendingBooking (by decide) (Or.inl rfl)

/-! ### Two-phase validation (§4.3), stated from the spec -/

/-- Spec §4.3 check 1: `listingType` ∈ \x7bhomestay, guide\x7d. -/
def specListingTypeOK (t : Option String) : Bool :=
  t == some "homestay" || t == some "guide"

/-- Spec §4.3 presence of a string field (absent or empty is not present). -/
def specStringPresent (s : Option String) : Bool :=
  !(s == none) && !(s == some "")

/-- Spec §4.3 check 4: `guests.adults >= 1`. -/
def specGuestsOK : Option GuestCounts → Bool
  | none => false
  | some g => decide (1 ≤ g.adults)

/-- Spec §4.3 check 5a: `guestDetails.name` present. -/
def specNamePresent : Option GuestDetails → Bool
  | none => false
  | some gd => gd.name != ""

/-- Spec §4.3 check 5b: `guestDetails.email` present. -/
def specEmailPresent : Option GuestDetails → Bool
  | none => false
  | some gd => gd.email != ""

/-- The field names violated by an input according to the spec's list of
presence checks (§4.3), in the order the spec lists them. -/
def specViolatedFields (input : CreateBookingInput) : List String :=
  (if specListingTypeOK input.listingType then [] else ["listingType"])
  ++ (if specStringPresent input.listingId then [] else ["listingId"])
  ++ (if input.checkIn.isSome then [] else ["checkIn"])
  ++ (if input.checkOut.isSome then [] else ["checkOut"])
  ++ (if specGuestsOK input.guests then [] else ["guests.adults"])
  ++ (if specNamePresent input.guestDetails then [] else ["guestDetails.name"])
  ++ (if specEmailPresent input.guestDetails then [] else ["guestDetails.email"])

theorem map_field_if_prop (c : Prop) [Decidable c] (c' : Bool)
    (hcc : c ↔ c' = false) (fe : FieldError) :
    (if c then [fe] else []).map FieldError.field
      = (if c' = true then [] else [fe.field]) := by
  by_cases h : c
  · simp [h, hcc.mp h]
  · have hc : c' = true := by
      cases hcp : c'
      · exact absurd (hcc.mpr hcp) h
      · rfl
    simp [h, hc]

theorem listingType_cond_iff (t : Option String) :
    (strFalsy t || !(["homestay", "guide"].contains (t.getD ""))) = true
      ↔ specListingTypeOK t = false := by
  cases t with
  | none => simp [strFalsy, specListingTypeOK]
  | some s =>
    by_cases h1 : s = "homestay"
    · simp [strFalsy, specListingTypeOK, h1]
      decide
    · by_cases h2 : s = "guide"
      · simp [strFalsy, specListingTypeOK, h1, h2]
        decide
      · simp [strFalsy, specListingTypeOK, h1, h2]

theorem listingId_cond_iff (s : Option String) :
    strFalsy s = true ↔ specStringPresent s = false := by
  cases s with
  | none => simp [strFalsy, specStringPresent]
  | some str =>
    by_cases h : str = "" <;>
      simp [strFalsy, specStringPresent, String.isEmpty_iff, h]

theorem isNone_cond_iff (o : Option Int) :
    o.isNone = true ↔ o.isSome = false := by
  cases o <;> simp

theorem adults_cond_iff (g : Option GuestCounts) :
    ((g.map GuestCounts.adults).getD 0 < 1) ↔ specGuestsOK g = false := by
  cases g with
  | none => simp [specGuestsOK]
  | some gc => simp [specGuestsOK]

theorem name_cond_iff (gd : Option GuestDetails) :
    strFalsy (gd.map GuestDetails.name) = true ↔ specNamePresent gd = false := by
  cases gd with
  | none => simp [strFalsy, specNamePresent]
  | some d =>
    by_cases h : d.name = "" <;>
      simp [strFalsy, specNamePresent, String.isEmpty_iff, h]

theorem email_cond_iff (gd : Option GuestDetails) :
    strFalsy (gd.map GuestDetails.email) = true ↔ specEmailPresent gd = false := by
  cases gd with
  | none => simp [strFalsy, specEmailPresent]
  | some d =>
    by_cases h : d.email = "" <;>
      simp [strFalsy, specEmailPresent, String.isEmpty_iff, h]

/-- The fields of the controller's validation-error list are exactly the
spec's violated fields, in order. -/
theorem validationErrors_fields (input : CreateBookingInput) :
    (validationErrors input).map FieldError.field = specViolatedFields input := by
  simp only [validationErrors, specViolatedFields, List.map_append]
  rw [map_field_if_prop _ _ (listingType_cond_iff input.listingType),
    map_field_if_prop _ _ (listingId_cond_iff input.listingId),
    map_field_if_prop _ _ (isNone_cond_iff input.checkIn),
    map_field_if_prop _ _ (isNone_cond_iff input.checkOut),
    map_field_if_prop _ _ (adults_cond_iff input.guests),
    map_field_if_prop _ _ (name_cond_iff input.guestDetails),
    map_field_if_prop _ _ (email_cond_iff input.guestDetails)]

/-- C4: `createBooking` validates in two phases: any violated presence
check yields a `ValidationError` carrying the complete list of field
errors (one entry per violated spec check, never partial); only when all
presence checks pass are the date-range rules evaluated, each reported as
an individual single-entry error, not batched with presence errors. -/
theorem createBooking_two_phase (store : List Booking) (input : CreateBookingInput)
    (now : Int) (lookup : String → String → LookupResult) (bookingNumber : Nat)
    (newId : String) :
    (specViolatedFields input ≠ [] →
      (createBooking store input now lookup bookingNumber newId).1
          = .validationError "Validation failed" (validationErrors input)
        ∧ (validationErrors input).map FieldError.field = specViolatedFields input)
    ∧ (specViolatedFields input = [] →
        (input.checkIn.getD 0 ≤ now →
          (createBooking store input now lookup bookingNumber newId).1
            = .validationError "Validation failed"
                [⟨"checkIn", "Check-in date must be in the future"⟩])
        ∧ (now < input.checkIn.getD 0 → input.checkOut.getD 0 ≤ input.checkIn.getD 0 →
          (createBooking store input now lookup bookingNumber newId).1
            = .validationError "Validation failed"
                [⟨"checkOut", "Check-out date must be after check-in date"⟩])) := by
  constructor
  · intro hne
    have hv : validationErrors input ≠ [] := by
      intro h0
      apply hne
      rw [← validationErrors_fields, h0, List.map_nil]
    have hlen : (validationErrors input).length > 0 := List.length_pos.mpr hv
    refine ⟨?_, validationErrors_fields input⟩
    simp [createBooking, hlen]
  · intro hnil
    have hv : validationErrors input = [] := by
      have hm := validationErrors_fields input
      rw [hnil] at hm
      cases he : validationErrors input with
      | nil => rfl
      | cons a l =>
        rw [he] at hm
        exact absurd hm (by simp)
    constructor
    · intro hle
      simp [createBooking, hv, hle]
    · intro hgt hle
      simp [createBooking, hv, not_le.mpr hgt, hle]

/-- An input whose adults count is zero and whose guest email is empty:
two presence checks fail at once. -/
def sampleBadInput : CreateBookingInput :=
  { listingType := some "homestay", listingId := some "h1",
    checkIn := some 1000, checkOut := some 2000,
    guests := some ⟨0, 0⟩,
    guestDetails := some ⟨"Asha Devi", "", "9999999999"⟩,
    specialRequests := none, pricing := ⟨1200, 6000⟩ }

/-- Witness for C4: both violated fields are reported together. -/
theorem createBooking_two_phase_witness :
    specViolatedFields sampleBadInput ≠ []
    ∧ ((createBooking [] sampleBadInput 0 sampleLookup 1 "b1").1
        = .validationError "Validation failed" (validationErrors sampleBadInput)
      ∧ (validationErrors sampleBadInput).map FieldError.field
          = specViolatedFields sampleBadInput)
    ∧ specViolatedFields sampleBadInput = ["guests.adults", "guestDetails.email"] :=
  ⟨by decide,
   (createBooking_two_phase [] sampleBadInput 0 sampleLookup 1 "b1").1 (by decide),
   by decide⟩

/-- C10: when the input passes every field-presence check but violates
both date-range rules (checkIn not strictly in the future and checkOut
not strictly after checkIn), only the checkIn error is reported; the
checkOut error is absent from the response. -/
theorem createBooking_checkIn_takes_precedence (store : List Booking)
    (input : CreateBookingInput) (now : Int)
    (lookup : String → String → LookupResult) (bookingNumber : Nat) (newId : String)
    (hval : validationErrors input = [])
    (hci : input.checkIn.getD 0 ≤ now)
    (hco : input.checkOut.getD 0 ≤ input.checkIn.getD 0) :
    createBooking store input now lookup bookingNumber newId
      = (.validationError "Validation failed"
          [⟨"checkIn", "Check-in date must be in the future"⟩], store) := by
  simp [createBooking, hval, hci]

/-- An input whose checkIn is in the past (relative to now = 5000) and
whose checkOut precedes its checkIn: both date rules violated. -/
def samplePastInput : CreateBookingInput :=
  { sampleInput1 with checkIn := some 1000, checkOut := some 500 }

/-- Witness for C10 on a concrete doubly-invalid input. -/
theorem createBooking_checkIn_takes_precedence_witness :
    validationErrors samplePastInput = []
    ∧ samplePastInput.checkIn.getD 0 ≤ 5000
    ∧ samplePastInput.checkOut.getD 0 ≤ samplePastInput.checkIn.getD 0
    ∧ createBooking [] samplePastInput 5000 sampleLookup 1 "b1"
        = (.validationError "Validation failed"
            [⟨"checkIn", "Check-in date must be in the future"⟩], []) :=
  ⟨by decide, by decide, by decide,
   createBooking_checkIn_takes_precedence [] samplePastInput 5000 sampleLookup 1 "b1"
     (by decide) (by decide) (by decide)⟩

/-! ### The conflict-error payload (§4.3 / §6) -/

theorem dateOnly_emod (t : Int) : dateOnly t % 86400000 = 0 :=
  Int.mul_emod_right _ _

/-- C7 as stated is false: the 409 payload echoes the requested check-in
and check-out verbatim from the input, time-of-day included; here the
requested check-in (1500 ms past midnight of day 0) appears unstripped in
`requestedCheckIn`, while only the conflicting booking's dates are
truncated. -/
theorem conflict_payload_counterexample :
    (createBooking [buildBooking sampleInput1 none 1 "b1"] sampleInput2 0
        sampleLookup 2 "b2").1
      = .conflictError "The selected dates are not available"
          ⟨1500, 2500, "b1", 0, 0⟩
    ∧ (1500 : Int) % 86400000 ≠ 0 ∧ (2500 : Int) % 86400000 ≠ 0 :=
  ⟨by decide, by decide, by decide⟩

/-- C7 amended: every rejection by the conflict check returns the
"selected dates are not available" error carrying the requested range
verbatim as supplied, together with the conflicting booking's id and its
check-in/check-out truncated to calendar-day precision (those two fields,
and only those, are day-precise). -/
theorem createBooking_conflict_payload (store : List Booking)
    (input : CreateBookingInput) (now : Int)
    (lookup : String → String → LookupResult) (bookingNumber : Nat)
    (newId : String) (m : String) (d : ConflictDetails)
    (hres : (createBooking store input now lookup bookingNumber newId).1
      = .conflictError m d) :
    ∃ b, hasDateConflict store (input.listingId.getD "") (input.checkIn.getD 0)
          (input.checkOut.getD 0) none = some b
      ∧ m = "The selected dates are not available"
      ∧ d.requestedCheckIn = input.checkIn.getD 0
      ∧ d.requestedCheckOut = input.checkOut.getD 0
      ∧ d.conflictingId = b.id
      ∧ d.conflictingCheckIn = dateOnly b.checkIn
      ∧ d.conflictingCheckOut = dateOnly b.checkOut
      ∧ d.conflictingCheckIn % 86400000 = 0
      ∧ d.conflictingCheckOut % 86400000 = 0 := by
  simp only [createBooking] at hres
  split at hres
  · simp at hres
  split at hres
  · simp at hres
  split at hres
  · simp at hres
  split at hres
  · rename_i b heq
    simp only [CreateResult.conflictError.injEq] at hres
    obtain ⟨hm, hd⟩ := hres
    subst hm
    subst hd
    exact ⟨b, heq, rfl, rfl, rfl, rfl, rfl, rfl, dateOnly_emod b.checkIn,
      dateOnly_emod b.checkOut⟩
  · simp at hres

/-- Witness for the amended C7 at a concrete conflicting request. -/
theorem createBooking_conflict_payload_witness :
    ∃ b, hasDateConflict [buildBooking sampleInput1 none 1 "b1"]
          (sampleInput2.listingId.getD "") (sampleInput2.checkIn.getD 0)
          (sampleInput2.checkOut.getD 0) none = some b
      ∧ "The selected dates are not available" = "The selected dates are not available"
      ∧ (ConflictDetails.mk 1500 2500 "b1" 0 0).requestedCheckIn = sampleInput2.checkIn.getD 0
      ∧ (ConflictDetails.mk 1500 2500 "b1" 0 0).requestedCheckOut = sampleInput2.checkOut.getD 0
      ∧ (ConflictDetails.mk 1500 2500 "b1" 0 0).conflictingId = b.id
      ∧ (ConflictDetails.mk 1500 2500 "b1" 0 0).conflictingCheckIn = dateOnly b.checkIn
      ∧ (ConflictDetails.mk 1500 2500 "b1" 0 0).conflictingCheckOut = dateOnly b.checkOut
      ∧ (ConflictDetails.mk 1500 2500 "b1" 0 0).conflictingCheckIn % 86400000 = 0
      ∧ (ConflictDetails.mk 1500 2500 "b1" 0 0).conflictingCheckOut % 86400000 = 0 :=
  createBooking_conflict_payload [buildBooking sampleInput1 none 1 "b1"] sampleInput2 0
    sampleLookup 2 "b2" "The selected dates are not available"
    ⟨1500, 2500, "b1", 0, 0⟩ (by decide)

/-! ### Best-effort title resolution -/

/-- C8: for every input passing validation and the conflict check, the
booking is created with status pending and paymentStatus pending no
matter what the title lookup does; its title is whatever `getListingTitle`
resolves, and a lookup that misses or throws — or an unknown listing type
— always resolves to an absent title, never failing the creation. -/
theorem createBooking_title_best_effort (store : List Booking)
    (input : CreateBookingInput) (now : Int) (bookingNumber : Nat) (newId : String)
    (hval : validationErrors input = [])
    (hci : now < input.checkIn.getD 0)
    (hco : input.checkIn.getD 0 < input.checkOut.getD 0)
    (hconf : hasDateConflict store (input.listingId.getD "") (input.checkIn.getD 0)
        (input.checkOut.getD 0) none = none) :
    (∀ lookup : String → String → LookupResult,
      ∃ b, createBooking store input now lookup bookingNumber newId
          = (.created b, store ++ [b])
        ∧ b.status = .pending ∧ b.paymentStatus = "pending"
        ∧ b.listingTitle
            = getListingTitle lookup (input.listingType.getD "") (input.listingId.getD ""))
    ∧ (∀ (lookup : String → String → LookupResult) (ty lid : String),
        ((∀ t, lookup ty lid ≠ .found t) ∨ (ty ≠ "homestay" ∧ ty ≠ "guide")) →
          getListingTitle lookup ty lid = none) := by
  constructor
  · intro lookup
    have h1 : ¬(input.checkIn.getD 0 ≤ now) := not_le.mpr hci
    have h2 : ¬(input.checkOut.getD 0 ≤ input.checkIn.getD 0) := not_le.mpr hco
    refine ⟨buildBooking input (getListingTitle lookup (input.listingType.getD "")
        (input.listingId.getD "")) bookingNumber newId, ?_, rfl, rfl, rfl⟩
    simp [createBooking, hval, h1, h2, hconf]
  · intro lookup ty lid hfail
    by_cases hh : ty = "homestay"
    · subst hh
      rcases hfail with hnf | ⟨habs, _⟩
      · simp only [getListingTitle]
        cases hl : lookup "homestay" lid with
        | found t => exact absurd hl (hnf t)
        | absent => simp [hl]
        | failure => simp [hl]
      · exact absurd rfl habs
    · by_cases hg : ty = "guide"
      · subst hg
        rcases hfail with hnf | ⟨_, habs⟩
        · simp only [getListingTitle]
          cases hl : lookup "guide" lid with
          | found t => exact absurd hl (hnf t)
          | absent => simp [hl]
          | failure => simp [hl]
        · exact absurd rfl habs
      · simp [getListingTitle, hh, hg]

/-- Witness for C8: a lookup that throws still yields a pending booking
with an absent title. -/
theorem createBooking_title_best_effort_witness :
    ∃ b, createBooking [] sampleInput1 0 sampleLookupThrow 1 "b1"
        = (.created b, [] ++ [b])
      ∧ b.status = .pending ∧ b.paymentStatus = "pending"
      ∧ b.listingTitle = getListingTitle sampleLookupThrow
          (sampleInput1.listingType.getD "") (sampleInput1.listingId.getD "") :=
  (createBooking_title_best_effort [] sampleInput1 0 1 "b1"
    (by decide) (by decide) (by decide) (by decide)).1 sampleLookupThrow

/-! ### The check-then-insert race (§5 atomicity) -/

/-- The admission gate of `createBooking` up to and including the
conflict check — everything the code runs against its snapshot of the
store before the first subsequent `await`: field validation, the two
date-range checks, and `hasDateConflict`. -/
def admissionCheckPasses (store : List Booking) (input : CreateBookingInput)
    (now : Int) : Bool :=
  validationErrors input == []
    && decide (now < input.checkIn.getD 0)
    && decide (input.checkIn.getD 0 < input.checkOut.getD 0)
    && (hasDateConflict store (input.listingId.getD "") (input.checkIn.getD 0)
          (input.checkOut.getD 0) none).isNone

/-- Bridging lemma: when the admission gate passes against the current
store, `createBooking` on that very store inserts the booking — the race
model's two steps compose to exactly `createBooking` when uninterrupted. -/
theorem createBooking_eq_of_admissionCheckPasses (store : List Booking)
    (input : CreateBookingInput) (now : Int)
    (lookup : String → String → LookupResult) (bookingNumber : Nat) (newId : String)
    (h : admissionCheckPasses store input now = true) :
    createBooking store input now lookup bookingNumber newId
      = (.created (buildBooking input
            (getListingTitle lookup (input.listingType.getD "") (input.listingId.getD ""))
            bookingNumber newId),
         store ++ [buildBooking input
            (getListingTitle lookup (input.listingType.getD "") (input.listingId.getD ""))
            bookingNumber newId]) := by
  simp only [admissionCheckPasses, Bool.and_eq_true, beq_iff_eq, decide_eq_true_eq,
    Option.isNone_iff_eq_none] at h
  obtain ⟨⟨⟨hval, hci⟩, hco⟩, hconf⟩ := h
  simp [createBooking, hval, not_le.mpr hci, not_le.mpr hco, hconf]

/-- One in-flight creation request: its body, its clock reading, and the
sequence number and document id it will be assigned. -/
structure AsyncCreate where
  input : CreateBookingInput
  now : Int
  bookingNumber : Nat
  newId : String

/-- Progress of an in-flight request: before the conflict check, past the
conflict check with the recorded outcome, or finished. -/
inductive Phase
  | notStarted
  | checked (ok : Bool)
  | completed (ok : Bool)
deriving DecidableEq, Repr

/-- Global state of concurrently executing creation requests: the shared
bookings collection plus each request's phase. -/
structure RaceState where
  store : List Booking
  phases : List Phase

/-- One scheduler step: run request `i` up to its next suspension point.
From `notStarted`, the request performs validation and the conflict check
against the current store (the code up to the `hasDateConflict` await);
from a passed check it performs the insert (`newBooking.save()`); a
failed check finishes rejected with 409. -/
def raceStep (lookup : String → String → LookupResult)
    (reqs : List AsyncCreate) (s : RaceState) (i : Nat) : RaceState :=
  match reqs.get? i, s.phases.get? i with
  | some r, some .notStarted =>
    { s with phases := s.phases.set i (.checked (admissionCheckPasses s.store r.input r.now)) }
  | some r, some (.checked true) =>
    { store := s.store ++ [buildBooking r.input
        (getListingTitle lookup (r.input.listingType.getD "") (r.input.listingId.getD ""))
        r.bookingNumber r.newId],
      phases := s.phases.set i (.completed true) }
  | some _, some (.checked false) =>
    { s with phases := s.phases.set i (.completed false) }
  | _, _ => s

/-- Run a whole interleaving schedule. -/
def runSchedule (lookup : String → String → LookupResult)
    (reqs : List AsyncCreate) (s : RaceState) (sched : List Nat) : RaceState :=
  sched.foldl (raceStep lookup reqs) s

/-- The two racing requests: overlapping stays on the same listing. -/
def raceReq1 : AsyncCreate := ⟨sampleInput1, 0, 1, "b1"⟩

/-- Second racing request, [1500, 2500) against [1000, 2000) on "h1". -/
def raceReq2 : AsyncCreate := ⟨sampleInput2, 0, 2, "b2"⟩

/-- C3 fails on the code: the conflict check and the insert are separate
awaited steps with no lock, transaction or unique index, so under the
interleaving check₁, check₂, insert₁, insert₂ both overlapping requests
pass the check against the pre-insert snapshot and both succeed,
violating the disjointness invariant — whereas run sequentially, the
second request is rejected with 409. -/
theorem createBooking_check_insert_not_atomic :
    (runSchedule sampleLookup [raceReq1, raceReq2]
        ⟨[], [.notStarted, .notStarted]⟩ [0, 1, 0, 1]).phases
      = [.completed true, .completed true]
    ∧ activeOverlapFree (runSchedule sampleLookup [raceReq1, raceReq2]
        ⟨[], [.notStarted, .notStarted]⟩ [0, 1, 0, 1]).store = false
    ∧ (createBooking ((createBooking [] sampleInput1 0 sampleLookup 1 "b1").2)
        sampleInput2 0 sampleLookup 2 "b2").1
      = .conflictError "The selected dates are not available" ⟨1500, 2500, "b1", 0, 0⟩ :=
  ⟨by decide, by decide, by decide⟩

end Bookings
